import Mathlib

/-!
Verification of the waydo radial-menu engine (`src/main.rs`).

The Rust source is shallowly embedded: the static menu tree becomes a
nested inductive, `f64` coordinates become real numbers, and the GTK click
and motion handlers become explicit state-transition functions together
with the list of actions they dispatch.
-/

namespace Waydo

/-- Embeds `struct Action { cmd, close_on_click }`. -/
structure Action where
  cmd : String
  close_on_click : Bool
  deriving DecidableEq

/-- Embeds `struct Color { r, g, b, a }`.  The `f64` channels are modelled as
rationals; colors are display hints and never influence behaviour. -/
structure Color where
  r : ℚ
  g : ℚ
  b : ℚ
  a : ℚ
  deriving DecidableEq

def DEFAULT_ITEM_COLOR : Color := ⟨0.15, 0.15, 0.15, 0.80⟩

def SUBMENU_ITEM_COLOR : Color := ⟨0.21, 0.19, 0.25, 0.84⟩

mutual

/-- Embeds `enum ItemKind { Action(Action), Submenu { items, on_click } }`. -/
inductive ItemKind : Type where
  | action : Action → ItemKind
  | submenu : (items : List MenuItem) → (on_click : Option Action) → ItemKind

/-- Embeds `struct MenuItem { label, kind, color }`. -/
inductive MenuItem : Type where
  | mk : (label : String) → (kind : ItemKind) → (color : Color) → MenuItem

end

def MenuItem.label : MenuItem → String
  | .mk l _ _ => l

def MenuItem.kind : MenuItem → ItemKind
  | .mk _ k _ => k

def MenuItem.color : MenuItem → Color
  | .mk _ _ c => c

def CENTER_RADIUS : ℝ := 18.0

def ITEM_RING_DISTANCE : ℝ := 86.0

def ITEM_RADIUS : ℝ := 35.0

def FONT_SIZE : ℝ := 13.0

def APP_MENU : List MenuItem := [
  ⟨"Neovide", .action ⟨"spawn -- fish -c ~/.local/bin/neovide-focus", true⟩, DEFAULT_ITEM_COLOR⟩,
  ⟨"Zen Browser", .action ⟨"spawn -- flatpak run app.zen_browser.zen", true⟩, DEFAULT_ITEM_COLOR⟩,
  ⟨"Files", .action ⟨"spawn -- nautilus", true⟩, DEFAULT_ITEM_COLOR⟩,
  ⟨"Zotero", .action ⟨"spawn -- flatpak run org.zotero.Zotero", true⟩, DEFAULT_ITEM_COLOR⟩,
  ⟨"Btop", .action ⟨"spawn -- alacritty --title \x27Btop\x27 -e btop", true⟩, DEFAULT_ITEM_COLOR⟩]

def ACTION_MENU : List MenuItem := [
  ⟨"App >", .submenu APP_MENU none, SUBMENU_ITEM_COLOR⟩,
  ⟨"Fullscreen", .action ⟨"fullscreen-window", false⟩, DEFAULT_ITEM_COLOR⟩,
  ⟨"Maximize", .action ⟨"maximize-window-to-edges", false⟩, DEFAULT_ITEM_COLOR⟩,
  ⟨"Toggle Float", .action ⟨"toggle-window-floating", false⟩, DEFAULT_ITEM_COLOR⟩,
  ⟨"Close", .action ⟨"close-window", true⟩, DEFAULT_ITEM_COLOR⟩,
  ⟨"Screenshot", .action ⟨"screenshot -p false", true⟩, DEFAULT_ITEM_COLOR⟩]

def MOVEMENT_MENU : List MenuItem := [
  ⟨"Up", .action ⟨"move-window-to-workspace-up", false⟩, DEFAULT_ITEM_COLOR⟩,
  ⟨"Right", .action ⟨"swap-window-right", false⟩, DEFAULT_ITEM_COLOR⟩,
  ⟨"Down", .action ⟨"move-window-to-workspace-down", false⟩, DEFAULT_ITEM_COLOR⟩,
  ⟨"Left", .action ⟨"swap-window-left", false⟩, DEFAULT_ITEM_COLOR⟩]

def FOCUS_MENU : List MenuItem := [
  ⟨"Up", .action ⟨"focus-workspace-up", false⟩, DEFAULT_ITEM_COLOR⟩,
  ⟨"Switch", .action ⟨"switch-focus-between-floating-and-tiling", false⟩, DEFAULT_ITEM_COLOR⟩,
  ⟨"Right", .action ⟨"focus-column-right", false⟩, DEFAULT_ITEM_COLOR⟩,
  ⟨"Move >", .submenu MOVEMENT_MENU none, SUBMENU_ITEM_COLOR⟩,
  ⟨"Down", .action ⟨"focus-workspace-down", false⟩, DEFAULT_ITEM_COLOR⟩,
  ⟨"Move >", .submenu MOVEMENT_MENU none, SUBMENU_ITEM_COLOR⟩,
  ⟨"Left", .action ⟨"focus-column-left", false⟩, DEFAULT_ITEM_COLOR⟩,
  ⟨"Switch", .action ⟨"switch-focus-between-floating-and-tiling", false⟩, DEFAULT_ITEM_COLOR⟩]

def MISC_MENU : List MenuItem := [
  ⟨"Page Up", .action ⟨"key-pageup", false⟩, DEFAULT_ITEM_COLOR⟩,
  ⟨"Undo", .action ⟨"key-ctrl-z", false⟩, DEFAULT_ITEM_COLOR⟩,
  ⟨"Redo", .action ⟨"key-ctrl-shift-z", false⟩, DEFAULT_ITEM_COLOR⟩,
  ⟨"Delete", .action ⟨"key-delete", true⟩, DEFAULT_ITEM_COLOR⟩,
  ⟨"Page Down", .action ⟨"key-pagedown", false⟩, DEFAULT_ITEM_COLOR⟩,
  ⟨"Copy", .action ⟨"key-ctrl-c", true⟩, DEFAULT_ITEM_COLOR⟩,
  ⟨"Paste", .action ⟨"key-ctrl-v", true⟩, DEFAULT_ITEM_COLOR⟩,
  ⟨"Duplicate", .action ⟨"key-ctrl-d", true⟩, DEFAULT_ITEM_COLOR⟩]

def BRUSH_MENU : List MenuItem := [
  ⟨"Blue", .action ⟨"key-ctrl-f5", true⟩, ⟨0.20, 0.45, 0.95, 0.90⟩⟩,
  ⟨"Green", .action ⟨"key-ctrl-f6", true⟩, ⟨0.18, 0.72, 0.30, 0.90⟩⟩,
  ⟨"Yellow", .action ⟨"key-ctrl-f7", true⟩, ⟨0.95, 0.83, 0.20, 0.90⟩⟩,
  ⟨"Orange", .action ⟨"key-ctrl-f8", true⟩, ⟨0.96, 0.56, 0.18, 0.90⟩⟩,
  ⟨"Red", .action ⟨"key-ctrl-f9", true⟩, ⟨0.88, 0.24, 0.24, 0.90⟩⟩]

def SELECTOR_MENU : List MenuItem := [
  ⟨"Polygon", .action ⟨"key-f1", true⟩, DEFAULT_ITEM_COLOR⟩,
  ⟨"Single", .action ⟨"key-f3", true⟩, DEFAULT_ITEM_COLOR⟩,
  ⟨"Intersecting", .action ⟨"key-f4", true⟩, DEFAULT_ITEM_COLOR⟩]

def TOOLS_MENU : List MenuItem := [
  ⟨"Vertical Space", .action ⟨"key-f5", true⟩, DEFAULT_ITEM_COLOR⟩,
  ⟨"Zoom", .action ⟨"key-f7", true⟩, DEFAULT_ITEM_COLOR⟩,
  ⟨"Laser", .action ⟨"key-f8", true⟩, DEFAULT_ITEM_COLOR⟩]

def ROOT_MENU : List MenuItem := [
  ⟨"Action >", .submenu ACTION_MENU none, SUBMENU_ITEM_COLOR⟩,
  ⟨"Workspace >", .submenu FOCUS_MENU none, SUBMENU_ITEM_COLOR⟩,
  ⟨"Tools >", .submenu TOOLS_MENU (some ⟨"key-ctrl-6 f6", false⟩), SUBMENU_ITEM_COLOR⟩,
  ⟨"Selector >", .submenu SELECTOR_MENU (some ⟨"key-ctrl-5 f2", false⟩), SUBMENU_ITEM_COLOR⟩,
  ⟨"Brush >", .submenu BRUSH_MENU (some ⟨"key-ctrl-1 ctrl-f1", false⟩), SUBMENU_ITEM_COLOR⟩,
  ⟨"Misc >", .submenu MISC_MENU none, SUBMENU_ITEM_COLOR⟩]

/-- Embeds `struct State`: the navigation state machine's only mutable data. -/
structure State where
  anchored : Bool
  visible : Bool
  px : ℝ
  py : ℝ
  cx : ℝ
  cy : ℝ
  root_cx : ℝ
  root_cy : ℝ
  path : List ℕ

/-- `State::default()`: booleans false, coordinates zero, empty path. -/
def initState : State := ⟨false, false, 0, 0, 0, 0, 0, 0, []⟩

/-- Embeds `current_items`, generalized over the starting menu (the Rust loop
starts from `ROOT_MENU` and mutates a cursor). -/
def currentItemsFrom : List MenuItem → List ℕ → List MenuItem
  | items, [] => items
  | items, idx :: rest =>
    match items[idx]? with
    | none => items
    | some item =>
      match item.kind with
      | ItemKind.submenu sub _ => currentItemsFrom sub rest
      | ItemKind.action _ => items

/-- `current_items(path)` from the source: walk `ROOT_MENU` along `path`. -/
def current_items (path : List ℕ) : List MenuItem := currentItemsFrom ROOT_MENU path

/-- Embeds `dist2`: squared Euclidean distance. -/
noncomputable def dist2 (ax ay bx by_ : ℝ) : ℝ :=
  (ax - bx) * (ax - bx) + (ay - by_) * (ay - by_)

/-- Embeds `ring_layout`: `n` positions around `(cx, cy)` at radius `d`,
entry `i` at angle `-π/2 + i·(2π/n)` (the source uses `TAU = 2π`). -/
noncomputable def ring_layout (n : ℕ) (cx cy d : ℝ) : List (ℝ × ℝ) :=
  if n = 0 then []
  else
    (List.range n).map fun (i : ℕ) =>
      (cx + d * Real.cos (-(Real.pi / 2) + (i : ℝ) * (2 * Real.pi / (n : ℝ))),
       cy + d * Real.sin (-(Real.pi / 2) + (i : ℝ) * (2 * Real.pi / (n : ℝ))))

/-- The accumulator loop of `closest_index_for_pointer`: `best` holds the
best `(index, squared distance)` so far, replaced only on strict improvement. -/
noncomputable def closestLoop (px py : ℝ) : List (ℝ × ℝ) → ℕ → Option (ℕ × ℝ) → Option (ℕ × ℝ)
  | [], _, best => best
  | q :: rest, i, best =>
    match best with
    | none => closestLoop px py rest (i + 1) (some (i, dist2 px py q.1 q.2))
    | some (bi, bd) =>
      if dist2 px py q.1 q.2 < bd then closestLoop px py rest (i + 1) (some (i, dist2 px py q.1 q.2))
      else closestLoop px py rest (i + 1) (some (bi, bd))

/-- Embeds `closest_index_for_pointer`: `none` inside the dead zone, else the
index of the nearest layout point (ties keep the earlier index). -/
noncomputable def closest_index_for_pointer (px py cx cy : ℝ) (points : List (ℝ × ℝ))
    (deadzone : ℝ) : Option ℕ :=
  if dist2 px py cx cy < deadzone * deadzone then none
  else Option.map Prod.fst (closestLoop px py points 0 none)

/-- Embeds `hide_menu`: clear visibility, anchoring and path. -/
def hide_menu (st : State) : State :=
  { st with visible := false, anchored := false, path := [] }

/-- Embeds `show_menu`: visible, waiting for an anchor, path reset. -/
def show_menu (st : State) : State :=
  { st with visible := true, anchored := false, path := [] }

/-- Embeds `run_action`: hide first when `close_on_click`, then dispatch the
command.  The external dispatch is modelled as the emitted action list. -/
def run_action (a : Action) (st : State) : State × List Action :=
  (if a.close_on_click then hide_menu st else st, [a])

/-- The body of `click.connect_released` after the center-control check:
hit-test the ring of `current_items(path)` and either dispatch an action,
quick-activate a submenu's default action, or descend. -/
noncomputable def mainHit (st : State) (x y : ℝ) : State × List Action :=
  if (current_items st.path).length = 0 then (st, [])
  else
    match closest_index_for_pointer x y st.cx st.cy
        (ring_layout (current_items st.path).length st.cx st.cy ITEM_RING_DISTANCE)
        CENTER_RADIUS with
    | none => (st, [])
    | some i =>
      match (current_items st.path)[i]? with
      | none => (st, [])
      | some item =>
        match item.kind with
        | ItemKind.action a => run_action a st
        | ItemKind.submenu _ oc =>
          match oc with
          | some a =>
            if dist2 x y st.cx st.cy ≤
                (ITEM_RING_DISTANCE - ITEM_RADIUS) * (ITEM_RING_DISTANCE - ITEM_RADIUS) then
              run_action { a with close_on_click := true } st
            else
              ((fun r => ({ r.1 with path := r.1.path ++ [i], cx := x, cy := y }, r.2))
                (run_action a st))
          | none => ({ st with path := st.path ++ [i], cx := x, cy := y }, [])

/-- Embeds the whole `click.connect_released` handler: ignore clicks while
hidden, anchor on the first click, handle the center control (hide at root,
pop one level otherwise — snapping the center to the click point), and
otherwise defer to `mainHit`. -/
noncomputable def clickReleased (st : State) (x y : ℝ) : State × List Action :=
  if st.visible = true then
    if st.anchored = true then
      if dist2 x y st.cx st.cy ≤ CENTER_RADIUS * CENTER_RADIUS then
        if st.path = [] then (hide_menu st, [])
        else ({ st with path := st.path.dropLast, cx := x, cy := y }, [])
      else mainHit st x y
    else ({ st with anchored := true, cx := x, cy := y, root_cx := x, root_cy := y }, [])
  else (st, [])

/-- Embeds `motion.connect_motion`: the first pointer move in a visible,
unanchored session fixes the anchor and the center. -/
def motionMove (st : State) (x y : ℝ) : State :=
  if st.visible && !st.anchored then
    { st with anchored := true, px := x, py := y, cx := x, cy := y, root_cx := x, root_cy := y }
  else st

/-- Embeds the `TOGGLE` message handler: hide when visible, show otherwise. -/
def toggleMsg (st : State) : State :=
  if st.visible then hide_menu st else show_menu st

/-- The serialized events the daemon's state machine reacts to. -/
inductive Event : Type where
  | toggle : Event
  | motion : ℝ → ℝ → Event
  | click : ℝ → ℝ → Event

/-- One event applied to the state (dispatched actions are dropped here). -/
noncomputable def step (st : State) : Event → State
  | Event.toggle => toggleMsg st
  | Event.motion x y => motionMove st x y
  | Event.click x y => (clickReleased st x y).1

/-- The state after a sequence of events starting from `State::default()`. -/
noncomputable def run (evs : List Event) : State :=
  evs.foldl step initState

/-- Embeds `key_token_to_evdev`: chord tokens to evdev key codes. -/
def key_token_to_evdev (tok : String) : Option ℕ :=
  match tok with
  | "ctrl" => some 29
  | "shift" => some 42
  | "alt" => some 56
  | "meta" => some 125
  | "super" => some 125
  | "1" => some 2
  | "2" => some 3
  | "3" => some 4
  | "4" => some 5
  | "5" => some 6
  | "6" => some 7
  | "7" => some 8
  | "8" => some 9
  | "9" => some 10
  | "0" => some 11
  | "f1" => some 59
  | "f2" => some 60
  | "f3" => some 61
  | "f4" => some 62
  | "f5" => some 63
  | "f6" => some 64
  | "f7" => some 65
  | "f8" => some 66
  | "f9" => some 67
  | "f10" => some 68
  | "f11" => some 87
  | "f12" => some 88
  | "a" => some 30
  | "b" => some 48
  | "c" => some 46
  | "d" => some 32
  | "e" => some 18
  | "f" => some 33
  | "g" => some 34
  | "h" => some 35
  | "i" => some 23
  | "j" => some 36
  | "k" => some 37
  | "l" => some 38
  | "m" => some 50
  | "n" => some 49
  | "o" => some 24
  | "p" => some 25
  | "q" => some 16
  | "r" => some 19
  | "s" => some 31
  | "t" => some 20
  | "u" => some 22
  | "v" => some 47
  | "w" => some 17
  | "x" => some 45
  | "y" => some 21
  | "z" => some 44
  | "minus" => some 12
  | "equal" => some 13
  | "plus" => some 13
  | "delete" => some 14
  | "backspace" => some 14
  | "pageup" => some 104
  | "pagedown" => some 109
  | _ => none

/-- The modifier loop of `run_ydotool_combo`: look each modifier token up
in order, failing the whole chord on the first unknown one. -/
def collect_mod_codes : List String → Option (List ℕ)
  | [] => some []
  | m :: rest =>
    match key_token_to_evdev m with
    | none => none
    | some c =>
      match collect_mod_codes rest with
      | none => none
      | some cs => some (c :: cs)

/-- The body of `run_ydotool_combo` after `spec.split('-')`: the argument
list handed to `ydotool`, or `none` when the whole chord is skipped.
`"{code}:1"` is a key press and `"{code}:0"` a release, in the order the
arguments are pushed. -/
def run_ydotool_combo_parts (parts : List String) : Option (List String) :=
  if parts.isEmpty then none
  else
    match parts.getLast? with
    | none => none
    | some mainTok =>
      match key_token_to_evdev mainTok with
      | none => none
      | some main_code =>
        match collect_mod_codes parts.dropLast with
        | none => none
        | some mod_codes =>
          some (("key" :: mod_codes.map (fun c => toString c ++ ":1"))
            ++ (toString main_code ++ ":1") :: (toString main_code ++ ":0")
            :: mod_codes.reverse.map (fun c => toString c ++ ":0"))

/-- Embeds `run_ydotool_combo`: split the chord on `'-'` and build the
`ydotool` invocation. -/
def run_ydotool_combo (spec : String) : Option (List String) :=
  run_ydotool_combo_parts (spec.splitOn "-")

/-- The three behaviours `main` can select from its first argument. -/
inductive MainMode : Type where
  | daemon : MainMode
  | toggle : MainMode
  | usage : MainMode
  deriving DecidableEq

/-- Embeds the `match arg.as_str()` of `main`; a missing first argument
defaults to `"toggle"`. -/
def mainMode (arg1 : Option String) : MainMode :=
  let arg := arg1.getD "toggle"
  if arg = "daemon" then MainMode.daemon
  else if arg = "toggle" then MainMode.toggle
  else MainMode.usage

/-- The process exit code of `main`: `none` while the daemon loop runs,
`some 0`/`some 1` for a toggle client depending on whether `send_toggle`
connected, and `some 2` after the usage message. -/
def mainExit (arg1 : Option String) (connectOk : Bool) : Option ℕ :=
  match mainMode arg1 with
  | MainMode.daemon => none
  | MainMode.toggle => if connectOk then some 0 else some 1
  | MainMode.usage => some 2

/-- Squared distance from the pointer to layout point `j` (0 past the end);
the measure `closest_index_for_pointer` minimizes. -/
noncomputable def ptDist2 (px py : ℝ) (points : List (ℝ × ℝ)) (j : ℕ) : ℝ :=
  match points[j]? with
  | some q => dist2 px py q.1 q.2
  | none => 0

/-- A menu item whose default action would close the menu on descent would
leave a hidden state with a non-empty path; no static item does. -/
def itemSafe : MenuItem → Bool
  | MenuItem.mk _ (ItemKind.submenu _ (some a)) _ => !a.close_on_click
  | _ => true

/-- True for plain action entries. -/
def itemIsAction : MenuItem → Bool
  | MenuItem.mk _ (ItemKind.action _) _ => true
  | _ => false

/-- Every menu reachable through submenu references satisfies `itemSafe`. -/
inductive SafeTree : List MenuItem → Prop where
  | mk (m : List MenuItem)
      (hsafe : m.all itemSafe = true)
      (hsub : ∀ (idx : ℕ) (item : MenuItem) (sub : List MenuItem) (oc : Option Action),
        m[idx]? = some item → item.kind = ItemKind.submenu sub oc → SafeTree sub) :
      SafeTree m

/-- The hidden-state invariant of claim C9. -/
def Inv (st : State) : Prop :=
  st.visible = false → st.path = [] ∧ st.anchored = false

lemma currentItemsFrom_oob {items : List MenuItem} {idx : ℕ} {rest : List ℕ}
    (h : items[idx]? = none) : currentItemsFrom items (idx :: rest) = items := by
  simp [currentItemsFrom, h]

lemma currentItemsFrom_action {items : List MenuItem} {idx : ℕ} {rest : List ℕ}
    {item : MenuItem} {a : Action} (hget : items[idx]? = some item)
    (hkind : item.kind = ItemKind.action a) :
    currentItemsFrom items (idx :: rest) = items := by
  simp [currentItemsFrom, hget, hkind]

lemma currentItemsFrom_submenu {items : List MenuItem} {idx : ℕ} {rest : List ℕ}
    {item : MenuItem} {sub : List MenuItem} {oc : Option Action}
    (hget : items[idx]? = some item) (hkind : item.kind = ItemKind.submenu sub oc) :
    currentItemsFrom items (idx :: rest) = currentItemsFrom sub rest := by
  simp [currentItemsFrom, hget, hkind]

lemma mainHit_empty {st : State} {x y : ℝ} (hn : (current_items st.path).length = 0) :
    mainHit st x y = (st, []) := by
  simp [mainHit, hn]

lemma mainHit_nohit {st : State} {x y : ℝ} (hn : (current_items st.path).length ≠ 0)
    (hclosest : closest_index_for_pointer x y st.cx st.cy
      (ring_layout (current_items st.path).length st.cx st.cy ITEM_RING_DISTANCE)
      CENTER_RADIUS = none) :
    mainHit st x y = (st, []) := by
  simp [mainHit, hn, hclosest]

lemma mainHit_badIdx {st : State} {x y : ℝ} {i : ℕ}
    (hn : (current_items st.path).length ≠ 0)
    (hclosest : closest_index_for_pointer x y st.cx st.cy
      (ring_layout (current_items st.path).length st.cx st.cy ITEM_RING_DISTANCE)
      CENTER_RADIUS = some i)
    (hget : (current_items st.path)[i]? = none) :
    mainHit st x y = (st, []) := by
  simp [mainHit, hn, hclosest, hget]

lemma mainHit_action {st : State} {x y : ℝ} {i : ℕ} {item : MenuItem} {a : Action}
    (hn : (current_items st.path).length ≠ 0)
    (hclosest : closest_index_for_pointer x y st.cx st.cy
      (ring_layout (current_items st.path).length st.cx st.cy ITEM_RING_DISTANCE)
      CENTER_RADIUS = some i)
    (hget : (current_items st.path)[i]? = some item)
    (hkind : item.kind = ItemKind.action a) :
    mainHit st x y = run_action a st := by
  simp [mainHit, hn, hclosest, hget, hkind]

lemma mainHit_submenu_none {st : State} {x y : ℝ} {i : ℕ} {item : MenuItem}
    {sub : List MenuItem}
    (hn : (current_items st.path).length ≠ 0)
    (hclosest : closest_index_for_pointer x y st.cx st.cy
      (ring_layout (current_items st.path).length st.cx st.cy ITEM_RING_DISTANCE)
      CENTER_RADIUS = some i)
    (hget : (current_items st.path)[i]? = some item)
    (hkind : item.kind = ItemKind.submenu sub none) :
    mainHit st x y = ({ st with path := st.path ++ [i], cx := x, cy := y }, []) := by
  simp [mainHit, hn, hclosest, hget, hkind]

lemma mainHit_submenu_quick {st : State} {x y : ℝ} {i : ℕ} {item : MenuItem}
    {sub : List MenuItem} {a : Action}
    (hn : (current_items st.path).length ≠ 0)
    (hclosest : closest_index_for_pointer x y st.cx st.cy
      (ring_layout (current_items st.path).length st.cx st.cy ITEM_RING_DISTANCE)
      CENTER_RADIUS = some i)
    (hget : (current_items st.path)[i]? = some item)
    (hkind : item.kind = ItemKind.submenu sub (some a))
    (hq : dist2 x y st.cx st.cy ≤
      (ITEM_RING_DISTANCE - ITEM_RADIUS) * (ITEM_RING_DISTANCE - ITEM_RADIUS)) :
    mainHit st x y = run_action { a with close_on_click := true } st := by
  simp [mainHit, hn, hclosest, hget, hkind, hq]

lemma mainHit_submenu_noquick {st : State} {x y : ℝ} {i : ℕ} {item : MenuItem}
    {sub : List MenuItem} {a : Action}
    (hn : (current_items st.path).length ≠ 0)
    (hclosest : closest_index_for_pointer x y st.cx st.cy
      (ring_layout (current_items st.path).length st.cx st.cy ITEM_RING_DISTANCE)
      CENTER_RADIUS = some i)
    (hget : (current_items st.path)[i]? = some item)
    (hkind : item.kind = ItemKind.submenu sub (some a))
    (hq : ¬ dist2 x y st.cx st.cy ≤
      (ITEM_RING_DISTANCE - ITEM_RADIUS) * (ITEM_RING_DISTANCE - ITEM_RADIUS)) :
    mainHit st x y =
      ({ (run_action a st).1 with
          path := (run_action a st).1.path ++ [i], cx := x, cy := y },
        (run_action a st).2) := by
  simp [mainHit, hn, hclosest, hget, hkind, hq]

lemma clickReleased_hidden {st : State} {x y : ℝ} (h : st.visible = false) :
    clickReleased st x y = (st, []) := by
  simp [clickReleased, h]

lemma clickReleased_anchor {st : State} {x y : ℝ} (hv : st.visible = true)
    (ha : st.anchored = false) :
    clickReleased st x y =
      ({ st with anchored := true, cx := x, cy := y, root_cx := x, root_cy := y }, []) := by
  simp [clickReleased, hv, ha]

lemma clickReleased_center_root {st : State} {x y : ℝ} (hv : st.visible = true)
    (ha : st.anchored = true)
    (hc : dist2 x y st.cx st.cy ≤ CENTER_RADIUS * CENTER_RADIUS) (hp : st.path = []) :
    clickReleased st x y = (hide_menu st, []) := by
  simp [clickReleased, hv, ha, hc, hp]

lemma clickReleased_center_pop {st : State} {x y : ℝ} (hv : st.visible = true)
    (ha : st.anchored = true)
    (hc : dist2 x y st.cx st.cy ≤ CENTER_RADIUS * CENTER_RADIUS) (hp : st.path ≠ []) :
    clickReleased st x y = ({ st with path := st.path.dropLast, cx := x, cy := y }, []) := by
  simp [clickReleased, hv, ha, hc, hp]

lemma clickReleased_hit {st : State} {x y : ℝ} (hv : st.visible = true)
    (ha : st.anchored = true)
    (hc : ¬ dist2 x y st.cx st.cy ≤ CENTER_RADIUS * CENTER_RADIUS) :
    clickReleased st x y = mainHit st x y := by
  simp [clickReleased, hv, ha, hc]

lemma ptDist2_cons_zero (px py : ℝ) (q : ℝ × ℝ) (rest : List (ℝ × ℝ)) :
    ptDist2 px py (q :: rest) 0 = dist2 px py q.1 q.2 := by
  simp [ptDist2]

lemma ptDist2_cons_succ (px py : ℝ) (q : ℝ × ℝ) (rest : List (ℝ × ℝ)) (m : ℕ) :
    ptDist2 px py (q :: rest) (m + 1) = ptDist2 px py rest m := by
  simp [ptDist2]

/-- What `closestLoop` computes when started from a candidate `(j, bj)`:
either the candidate survives (no strictly closer point), or the result is
the first point realizing a strictly smaller distance than everything
before it and no larger than everything in the list. -/
lemma closestLoop_go (px py : ℝ) (pts : List (ℝ × ℝ)) : ∀ (i j : ℕ) (bj : ℝ),
    ∃ k dk, closestLoop px py pts i (some (j, bj)) = some (k, dk) ∧
      ((k = j ∧ dk = bj ∧ ∀ m, m < pts.length → bj ≤ ptDist2 px py pts m) ∨
       (∃ m, m < pts.length ∧ k = i + m ∧ dk = ptDist2 px py pts m ∧ dk < bj ∧
         (∀ m2, m2 < m → dk < ptDist2 px py pts m2) ∧
         (∀ m2, m2 < pts.length → dk ≤ ptDist2 px py pts m2))) := by
  induction pts with
  | nil =>
    intro i j bj
    exact ⟨j, bj, rfl, Or.inl ⟨rfl, rfl, by simp⟩⟩
  | cons q rest ih =>
    intro i j bj
    by_cases hlt : dist2 px py q.1 q.2 < bj
    · have h1 : closestLoop px py (q :: rest) i (some (j, bj)) =
          closestLoop px py rest (i + 1) (some (i, dist2 px py q.1 q.2)) := by
        simp only [closestLoop, if_pos hlt]
      obtain ⟨k, dk, hrun, hcase⟩ := ih (i + 1) i (dist2 px py q.1 q.2)
      refine ⟨k, dk, h1.trans hrun, Or.inr ?_⟩
      rcases hcase with ⟨hk, hdk, hall⟩ | ⟨m, hm, hk, hdk, hlt2, hearly, hall⟩
      · refine ⟨0, by simp, by omega, by rw [hdk, ptDist2_cons_zero], hdk ▸ hlt, ?_, ?_⟩
        · intro m2 hm2; omega
        · intro m2 hm2
          cases m2 with
          | zero => rw [hdk, ptDist2_cons_zero]
          | succ s =>
            rw [ptDist2_cons_succ, hdk]
            exact hall s (by simpa using hm2)
      · refine ⟨m + 1, by simpa using hm, by omega, by rw [ptDist2_cons_succ]; exact hdk,
          lt_trans hlt2 hlt, ?_, ?_⟩
        · intro m2 hm2
          cases m2 with
          | zero => rw [ptDist2_cons_zero]; exact hlt2
          | succ s => rw [ptDist2_cons_succ]; exact hearly s (by omega)
        · intro m2 hm2
          cases m2 with
          | zero => rw [ptDist2_cons_zero]; exact le_of_lt hlt2
          | succ s => rw [ptDist2_cons_succ]; exact hall s (by simpa using hm2)
    · have h1 : closestLoop px py (q :: rest) i (some (j, bj)) =
          closestLoop px py rest (i + 1) (some (j, bj)) := by
        simp only [closestLoop, if_neg hlt]
      obtain ⟨k, dk, hrun, hcase⟩ := ih (i + 1) j bj
      refine ⟨k, dk, h1.trans hrun, ?_⟩
      rcases hcase with ⟨hk, hdk, hall⟩ | ⟨m, hm, hk, hdk, hlt2, hearly, hall⟩
      · refine Or.inl ⟨hk, hdk, ?_⟩
        intro m2 hm2
        cases m2 with
        | zero => rw [ptDist2_cons_zero]; exact not_lt.mp hlt
        | succ s => rw [ptDist2_cons_succ]; exact hall s (by simpa using hm2)
      · refine Or.inr ⟨m + 1, by simpa using hm, by omega, by rw [ptDist2_cons_succ]; exact hdk,
          hlt2, ?_, ?_⟩
        · intro m2 hm2
          cases m2 with
          | zero => rw [ptDist2_cons_zero]; exact lt_of_lt_of_le hlt2 (not_lt.mp hlt)
          | succ s => rw [ptDist2_cons_succ]; exact hearly s (by omega)
        · intro m2 hm2
          cases m2 with
          | zero => rw [ptDist2_cons_zero]; exact le_of_lt (lt_of_lt_of_le hlt2 (not_lt.mp hlt))
          | succ s => rw [ptDist2_cons_succ]; exact hall s (by simpa using hm2)

/-- Outside the dead zone, a non-empty layout always yields the least index
minimizing the squared distance to the pointer. -/
lemma closest_spec (px py cx cy deadzone : ℝ) (points : List (ℝ × ℝ))
    (hdz : ¬ dist2 px py cx cy < deadzone * deadzone) (hne : points ≠ []) :
    ∃ k, k < points.length ∧
      closest_index_for_pointer px py cx cy points deadzone = some k ∧
      (∀ j, j < points.length → ptDist2 px py points k ≤ ptDist2 px py points j) ∧
      (∀ j, j < k → ptDist2 px py points k < ptDist2 px py points j) := by
  obtain ⟨q, rest, rfl⟩ := List.exists_cons_of_ne_nil hne
  have hstep : closest_index_for_pointer px py cx cy (q :: rest) deadzone =
      Option.map Prod.fst (closestLoop px py rest 1 (some (0, dist2 px py q.1 q.2))) := by
    simp only [closest_index_for_pointer, if_neg hdz, closestLoop]
  obtain ⟨k, dk, hrun, hcase⟩ := closestLoop_go px py rest 1 0 (dist2 px py q.1 q.2)
  rcases hcase with ⟨hk, hdk, hall⟩ | ⟨m, hm, hk, hdk, hlt2, hearly, hall⟩
  · subst hk
    refine ⟨0, by simp, by rw [hstep, hrun]; rfl, ?_, fun j hj => absurd hj (by omega)⟩
    intro j hj
    cases j with
    | zero => exact le_refl _
    | succ s =>
      rw [ptDist2_cons_zero, ptDist2_cons_succ]
      exact hdk ▸ hall s (by simpa using hj)
  · subst hk
    refine ⟨m + 1, by simpa using hm, ?_, ?_, ?_⟩
    · rw [hstep, hrun]
      simp [Nat.add_comm]
    · intro j hj
      cases j with
      | zero =>
        rw [ptDist2_cons_succ, ptDist2_cons_zero, ← hdk]
        exact le_of_lt hlt2
      | succ s =>
        rw [ptDist2_cons_succ, ptDist2_cons_succ, ← hdk]
        exact hall s (by simpa using hj)
    · intro j hj
      cases j with
      | zero =>
        rw [ptDist2_cons_succ, ptDist2_cons_zero, ← hdk]
        exact hlt2
      | succ s =>
        rw [ptDist2_cons_succ, ptDist2_cons_succ, ← hdk]
        exact hearly s (by omega)

/-- Claim C4: for a non-empty layout, a pointer inside the dead zone selects
no entry; otherwise the selected entry is the one minimizing the squared
Euclidean distance to the pointer, and an exact tie keeps the lower index
(the result is the least minimizer). -/
theorem closest_index_spec (px py cx cy deadzone : ℝ) (points : List (ℝ × ℝ))
    (hne : points ≠ []) :
    (dist2 px py cx cy < deadzone * deadzone ∧
      closest_index_for_pointer px py cx cy points deadzone = none) ∨
    (¬ dist2 px py cx cy < deadzone * deadzone ∧
      ∃ k, k < points.length ∧
        closest_index_for_pointer px py cx cy points deadzone = some k ∧
        (∀ j, j < points.length → ptDist2 px py points k ≤ ptDist2 px py points j) ∧
        (∀ j, j < k → ptDist2 px py points k < ptDist2 px py points j)) := by
  by_cases h : dist2 px py cx cy < deadzone * deadzone
  · exact Or.inl ⟨h, by simp [closest_index_for_pointer, if_pos h]⟩
  · exact Or.inr ⟨h, closest_spec px py cx cy deadzone points h hne⟩

/-- Witness for C4 at a concrete input: pointer `(0,0)`, layout
`[(0,1), (0,-1)]` (a tie), dead zone centered away from the pointer. -/
theorem closest_index_spec_witness :
    ([((0:ℝ), (1:ℝ)), ((0:ℝ), (-1:ℝ))] ≠ ([] : List (ℝ × ℝ))) ∧
    ((dist2 0 0 5 5 < 1 * 1 ∧
      closest_index_for_pointer 0 0 5 5 [((0:ℝ), (1:ℝ)), ((0:ℝ), (-1:ℝ))] 1 = none) ∨
    (¬ dist2 0 0 5 5 < 1 * 1 ∧
      ∃ k, k < ([((0:ℝ), (1:ℝ)), ((0:ℝ), (-1:ℝ))]).length ∧
        closest_index_for_pointer 0 0 5 5 [((0:ℝ), (1:ℝ)), ((0:ℝ), (-1:ℝ))] 1 = some k ∧
        (∀ j, j < ([((0:ℝ), (1:ℝ)), ((0:ℝ), (-1:ℝ))]).length →
          ptDist2 0 0 [((0:ℝ), (1:ℝ)), ((0:ℝ), (-1:ℝ))] k ≤
            ptDist2 0 0 [((0:ℝ), (1:ℝ)), ((0:ℝ), (-1:ℝ))] j) ∧
        (∀ j, j < k → ptDist2 0 0 [((0:ℝ), (1:ℝ)), ((0:ℝ), (-1:ℝ))] k <
          ptDist2 0 0 [((0:ℝ), (1:ℝ)), ((0:ℝ), (-1:ℝ))] j))) :=
  ⟨by simp, closest_index_spec 0 0 5 5 1 _ (by simp)⟩

/-- Claim C10: outside the dead zone a non-empty layout never misses — the
hit-test always returns some index strictly below the number of points, so
the click handler's no-hit fallthrough is unreachable there. -/
theorem closest_index_total (px py cx cy deadzone : ℝ) (points : List (ℝ × ℝ))
    (hdz : ¬ dist2 px py cx cy < deadzone * deadzone) (hne : points ≠ []) :
    ∃ k, k < points.length ∧
      closest_index_for_pointer px py cx cy points deadzone = some k := by
  obtain ⟨k, hk, heq, -, -⟩ := closest_spec px py cx cy deadzone points hdz hne
  exact ⟨k, hk, heq⟩

/-- Witness for C10 at a concrete input: a pointer far outside the ring. -/
theorem closest_index_total_witness :
    (¬ dist2 1000 0 0 0 < 18 * 18) ∧ ([((5:ℝ), (5:ℝ))] ≠ ([] : List (ℝ × ℝ))) ∧
    ∃ k, k < ([((5:ℝ), (5:ℝ))]).length ∧
      closest_index_for_pointer 1000 0 0 0 [((5:ℝ), (5:ℝ))] 18 = some k :=
  ⟨by norm_num [dist2], by simp,
    closest_index_total 1000 0 0 0 18 [((5:ℝ), (5:ℝ))] (by norm_num [dist2]) (by simp)⟩

lemma ring_layout_length (n : ℕ) (cx cy d : ℝ) : (ring_layout n cx cy d).length = n := by
  by_cases hn : n = 0
  · subst hn; simp [ring_layout]
  · rw [ring_layout, if_neg hn, List.length_map, List.length_range]

lemma ring_layout_get? (n : ℕ) (cx cy d : ℝ) (i : ℕ) (hi : i < n) :
    (ring_layout n cx cy d)[i]? =
      some (cx + d * Real.cos (-(Real.pi / 2) + (i : ℝ) * (2 * Real.pi / (n : ℝ))),
            cy + d * Real.sin (-(Real.pi / 2) + (i : ℝ) * (2 * Real.pi / (n : ℝ)))) := by
  have hn : ¬ n = 0 := by omega
  rw [ring_layout, if_neg hn, List.getElem?_map, List.getElem?_range hi]
  rfl

/-- Claim C3: `ring_layout 0` is empty; for `n ≥ 1` and a positive radius
`d` the layout has exactly `n` positions, entry `i` sits at angle
`-π/2 + i·(2π/n)` at distance `d` from `(cx, cy)`, and entry 0 is exactly
`(cx, cy - d)` — on the vertical through the center, strictly above it. -/
theorem ring_layout_spec (n : ℕ) (cx cy d : ℝ) :
    ring_layout 0 cx cy d = [] ∧
    (ring_layout n cx cy d).length = n ∧
    (1 ≤ n → 0 < d →
      (∀ (i : ℕ), i < n → (ring_layout n cx cy d)[i]? =
        some (cx + d * Real.cos (-(Real.pi / 2) + (i : ℝ) * (2 * Real.pi / (n : ℝ))),
              cy + d * Real.sin (-(Real.pi / 2) + (i : ℝ) * (2 * Real.pi / (n : ℝ))))) ∧
      (∀ (i : ℕ) (p : ℝ × ℝ), (ring_layout n cx cy d)[i]? = some p →
        Real.sqrt (dist2 p.1 p.2 cx cy) = d) ∧
      (ring_layout n cx cy d)[0]? = some (cx, cy - d) ∧
      cy - d < cy) := by
  refine ⟨by simp [ring_layout], ring_layout_length n cx cy d, ?_⟩
  intro hn hd
  refine ⟨fun i hi => ring_layout_get? n cx cy d i hi, ?_, ?_, by linarith⟩
  · intro i p hp
    have hi : i < n := by
      by_contra hc
      rw [List.getElem?_eq_none (by rw [ring_layout_length]; omega)] at hp
      exact Option.noConfusion hp
    rw [ring_layout_get? n cx cy d i hi] at hp
    have hp2 := Option.some.inj hp
    subst hp2
    have hval : dist2 (cx + d * Real.cos (-(Real.pi / 2) + (i : ℝ) * (2 * Real.pi / (n : ℝ))))
        (cy + d * Real.sin (-(Real.pi / 2) + (i : ℝ) * (2 * Real.pi / (n : ℝ)))) cx cy = d ^ 2 := by
      simp only [dist2]
      nlinarith [Real.sin_sq_add_cos_sq (-(Real.pi / 2) + (i : ℝ) * (2 * Real.pi / (n : ℝ)))]
    rw [hval, Real.sqrt_sq hd.le]
  · rw [ring_layout_get? n cx cy d 0 (by omega)]
    norm_num [Real.cos_neg, Real.sin_neg, Real.cos_pi_div_two, Real.sin_pi_div_two]
    ring

/-- Witness for C3 at `n = 1`, center `(0,0)`, radius `1`. -/
theorem ring_layout_spec_witness :
    ring_layout 0 (0:ℝ) 0 1 = [] ∧ (ring_layout 1 (0:ℝ) 0 1).length = 1 ∧
    (ring_layout 1 (0:ℝ) 0 1)[0]? = some (0, 0 - 1) ∧ (0:ℝ) - 1 < 0 :=
  ⟨(ring_layout_spec 1 0 0 1).1, (ring_layout_spec 1 0 0 1).2.1,
    ((ring_layout_spec 1 0 0 1).2.2 le_rfl one_pos).2.2.1,
    ((ring_layout_spec 1 0 0 1).2.2 le_rfl one_pos).2.2.2⟩

/-- Claim C5: `current_items` walks `ROOT_MENU` along the path and is total;
an out-of-range index or an index naming an `Action` entry stops the walk
and yields the menu reached so far, while a `Submenu` index steps into the
referenced menu. -/
theorem current_items_spec :
    current_items [] = ROOT_MENU ∧
    (∀ path, current_items path = currentItemsFrom ROOT_MENU path) ∧
    (∀ items idx rest, items.length ≤ idx →
      currentItemsFrom items (idx :: rest) = items) ∧
    (∀ items idx rest item a, items[idx]? = some item →
      item.kind = ItemKind.action a → currentItemsFrom items (idx :: rest) = items) ∧
    (∀ items idx rest item sub oc, items[idx]? = some item →
      item.kind = ItemKind.submenu sub oc →
      currentItemsFrom items (idx :: rest) = currentItemsFrom sub rest) := by
  refine ⟨rfl, fun _ => rfl, ?_, ?_, ?_⟩
  · intro items idx rest h
    have hnone : items[idx]? = none := List.getElem?_eq_none h
    simp [currentItemsFrom, hnone]
  · intro items idx rest item a hget hkind
    simp [currentItemsFrom, hget, hkind]
  · intro items idx rest item sub oc hget hkind
    simp [currentItemsFrom, hget, hkind]

/-- Witness for C5: an out-of-range index, a stop at an `Action` entry, and
a step into a submenu, each on the static tree. -/
theorem current_items_spec_witness :
    currentItemsFrom ROOT_MENU [10] = ROOT_MENU ∧
    currentItemsFrom APP_MENU [0, 3] = APP_MENU ∧
    currentItemsFrom ROOT_MENU [0, 7] = currentItemsFrom ACTION_MENU [7] :=
  ⟨current_items_spec.2.2.1 ROOT_MENU 10 [] (by decide),
   current_items_spec.2.2.2.1 APP_MENU 0 [3] _
     ⟨"spawn -- fish -c ~/.local/bin/neovide-focus", true⟩ rfl rfl,
   current_items_spec.2.2.2.2 ROOT_MENU 0 [7] _ ACTION_MENU none rfl rfl⟩

/-- Claim C7: a chord whose tokens all resolve produces exactly the event
sequence: modifiers pressed in order, main key pressed then released,
modifiers released in reverse order; one unknown token skips the whole
chord with no event. -/
theorem combo_spec :
    (∀ spec, run_ydotool_combo spec = run_ydotool_combo_parts (spec.splitOn "-")) ∧
    (∀ mods mainTok main_code mod_codes,
      key_token_to_evdev mainTok = some main_code →
      collect_mod_codes mods = some mod_codes →
      run_ydotool_combo_parts (mods ++ [mainTok]) =
        some (("key" :: mod_codes.map (fun c => toString c ++ ":1"))
          ++ (toString main_code ++ ":1") :: (toString main_code ++ ":0")
          :: mod_codes.reverse.map (fun c => toString c ++ ":0"))) ∧
    (∀ mods mainTok,
      (key_token_to_evdev mainTok = none ∨ collect_mod_codes mods = none) →
      run_ydotool_combo_parts (mods ++ [mainTok]) = none) := by
  refine ⟨fun _ => rfl, ?_, ?_⟩
  · intro mods mainTok main_code mod_codes hmain hmods
    simp [run_ydotool_combo_parts, List.getLast?_concat, List.dropLast_concat, hmain, hmods]
  · intro mods mainTok hbad
    rcases hbad with hmain | hmods
    · simp [run_ydotool_combo_parts, List.getLast?_concat, hmain]
    · cases hk : key_token_to_evdev mainTok <;>
        simp [run_ydotool_combo_parts, List.getLast?_concat, List.dropLast_concat, hmods, hk]

/-- Witness for C7: the chord `ctrl-z` resolves to press 29, press 44,
release 44, release 29; the chord `ctrl-qq` is skipped. -/
theorem combo_spec_witness :
    run_ydotool_combo "ctrl-z" = run_ydotool_combo_parts ("ctrl-z".splitOn "-") ∧
    run_ydotool_combo_parts (["ctrl"] ++ ["z"]) =
      some (("key" :: [29].map (fun c => toString c ++ ":1"))
        ++ (toString 44 ++ ":1") :: (toString 44 ++ ":0")
        :: [29].reverse.map (fun c => toString c ++ ":0")) ∧
    run_ydotool_combo_parts (["ctrl"] ++ ["qq"]) = none :=
  ⟨combo_spec.1 "ctrl-z",
   combo_spec.2.1 ["ctrl"] "z" 44 [29] rfl rfl,
   combo_spec.2.2 ["ctrl"] "qq" (Or.inl rfl)⟩

/-- Claim C8: `daemon` runs the event loop, `toggle` (also the default with
no argument) contacts the endpoint and exits 0 on success and 1 on
connection failure, and any other argument is a usage error exiting 2. -/
theorem main_cli_spec :
    mainMode (some "daemon") = MainMode.daemon ∧
    mainMode (some "toggle") = MainMode.toggle ∧
    mainMode none = MainMode.toggle ∧
    (∀ ok, mainExit none ok = mainExit (some "toggle") ok) ∧
    (∀ ok, mainExit (some "toggle") ok = if ok then some 0 else some 1) ∧
    mainExit (some "daemon") true = none ∧
    (∀ s, s ≠ "daemon" → s ≠ "toggle" →
      mainMode (some s) = MainMode.usage ∧ mainExit (some s) true = some 2) := by
  refine ⟨rfl, rfl, rfl, fun ok => rfl, fun ok => rfl, rfl, ?_⟩
  intro s h1 h2
  have hm : mainMode (some s) = MainMode.usage := by
    simp [mainMode, h1, h2]
  exact ⟨hm, by simp [mainExit, hm]⟩

/-- Witness for C8 at the concrete unknown argument `"status"`. -/
theorem main_cli_spec_witness :
    mainMode (some "status") = MainMode.usage ∧ mainExit (some "status") true = some 2 :=
  main_cli_spec.2.2.2.2.2.2 "status" (by decide) (by decide)

lemma kind_submenu_inv {l : String} {c : Color} {ms sub : List MenuItem} {o oc : Option Action}
    (h : (MenuItem.mk l (ItemKind.submenu ms o) c).kind = ItemKind.submenu sub oc) :
    ms = sub ∧ o = oc := by
  simpa [MenuItem.kind] using h

lemma kind_action_no {l : String} {c : Color} {a : Action} {sub : List MenuItem}
    {oc : Option Action}
    (h : (MenuItem.mk l (ItemKind.action a) c).kind = ItemKind.submenu sub oc) : False := by
  simp [MenuItem.kind] at h

lemma no_submenu_of_all_action (m : List MenuItem) (h : m.all itemIsAction = true)
    (idx : ℕ) (item : MenuItem) (sub : List MenuItem) (oc : Option Action)
    (hget : m[idx]? = some item) (hkind : item.kind = ItemKind.submenu sub oc) : False := by
  have hmem : item ∈ m := List.getElem?_mem hget
  have hact := List.all_eq_true.mp h item hmem
  cases item with
  | mk l k c =>
    cases k with
    | action a => exact kind_action_no hkind
    | submenu s o => simp [itemIsAction] at hact

lemma safeTree_of_all_action (m : List MenuItem) (hact : m.all itemIsAction = true) :
    SafeTree m := by
  refine SafeTree.mk m ?_ ?_
  · rw [List.all_eq_true] at hact ⊢
    intro item hm
    have hone := hact item hm
    cases item with
    | mk l k c =>
      cases k with
      | action a => rfl
      | submenu s o => simp [itemIsAction] at hone
  · intro idx item sub oc hget hkind
    exact (no_submenu_of_all_action m hact idx item sub oc hget hkind).elim

lemma safeTree_APP_MENU : SafeTree APP_MENU := safeTree_of_all_action _ rfl

lemma safeTree_MOVEMENT_MENU : SafeTree MOVEMENT_MENU := safeTree_of_all_action _ rfl

lemma safeTree_MISC_MENU : SafeTree MISC_MENU := safeTree_of_all_action _ rfl

lemma safeTree_BRUSH_MENU : SafeTree BRUSH_MENU := safeTree_of_all_action _ rfl

lemma safeTree_SELECTOR_MENU : SafeTree SELECTOR_MENU := safeTree_of_all_action _ rfl

lemma safeTree_TOOLS_MENU : SafeTree TOOLS_MENU := safeTree_of_all_action _ rfl

lemma safeTree_ACTION_MENU : SafeTree ACTION_MENU := by
  refine SafeTree.mk _ rfl ?_
  intro idx item sub oc hget hkind
  have hmem : item ∈ ACTION_MENU := List.getElem?_mem hget
  simp only [ACTION_MENU, List.mem_cons, List.not_mem_nil, or_false] at hmem
  rcases hmem with rfl | rfl | rfl | rfl | rfl | rfl
  · obtain ⟨rfl, rfl⟩ := kind_submenu_inv hkind
    exact safeTree_APP_MENU
  all_goals exact (kind_action_no hkind).elim

lemma safeTree_FOCUS_MENU : SafeTree FOCUS_MENU := by
  refine SafeTree.mk _ rfl ?_
  intro idx item sub oc hget hkind
  have hmem : item ∈ FOCUS_MENU := List.getElem?_mem hget
  simp only [FOCUS_MENU, List.mem_cons, List.not_mem_nil, or_false] at hmem
  rcases hmem with rfl | rfl | rfl | rfl | rfl | rfl | rfl | rfl
  · exact (kind_action_no hkind).elim
  · exact (kind_action_no hkind).elim
  · exact (kind_action_no hkind).elim
  · obtain ⟨rfl, rfl⟩ := kind_submenu_inv hkind
    exact safeTree_MOVEMENT_MENU
  · exact (kind_action_no hkind).elim
  · obtain ⟨rfl, rfl⟩ := kind_submenu_inv hkind
    exact safeTree_MOVEMENT_MENU
  · exact (kind_action_no hkind).elim
  · exact (kind_action_no hkind).elim

lemma safeTree_ROOT_MENU : SafeTree ROOT_MENU := by
  refine SafeTree.mk _ rfl ?_
  intro idx item sub oc hget hkind
  have hmem : item ∈ ROOT_MENU := List.getElem?_mem hget
  simp only [ROOT_MENU, List.mem_cons, List.not_mem_nil, or_false] at hmem
  rcases hmem with rfl | rfl | rfl | rfl | rfl | rfl
  · obtain ⟨rfl, rfl⟩ := kind_submenu_inv hkind
    exact safeTree_ACTION_MENU
  · obtain ⟨rfl, rfl⟩ := kind_submenu_inv hkind
    exact safeTree_FOCUS_MENU
  · obtain ⟨rfl, rfl⟩ := kind_submenu_inv hkind
    exact safeTree_TOOLS_MENU
  · obtain ⟨rfl, rfl⟩ := kind_submenu_inv hkind
    exact safeTree_SELECTOR_MENU
  · obtain ⟨rfl, rfl⟩ := kind_submenu_inv hkind
    exact safeTree_BRUSH_MENU
  · obtain ⟨rfl, rfl⟩ := kind_submenu_inv hkind
    exact safeTree_MISC_MENU

lemma SafeTree_safe : ∀ {m : List MenuItem}, SafeTree m → m.all itemSafe = true
  | _, SafeTree.mk _ hsafe _ => hsafe

lemma SafeTree_sub : ∀ {m : List MenuItem}, SafeTree m →
    ∀ (idx : ℕ) (item : MenuItem) (sub : List MenuItem) (oc : Option Action),
      m[idx]? = some item → item.kind = ItemKind.submenu sub oc → SafeTree sub
  | _, SafeTree.mk _ _ hsub => hsub

lemma safeTree_current (path : List ℕ) : ∀ (m : List MenuItem), SafeTree m →
    SafeTree (currentItemsFrom m path) := by
  induction path with
  | nil => intro m hm; exact hm
  | cons idx rest ih =>
    intro m hm
    cases hget : m[idx]? with
    | none => rw [currentItemsFrom_oob hget]; exact hm
    | some item =>
      cases hkind : item.kind with
      | action a => rw [currentItemsFrom_action hget hkind]; exact hm
      | submenu sub o =>
        rw [currentItemsFrom_submenu hget hkind]
        exact ih sub (SafeTree_sub hm idx item sub o hget hkind)

lemma current_all_safe (path : List ℕ) : (current_items path).all itemSafe = true :=
  SafeTree_safe (safeTree_current path ROOT_MENU safeTree_ROOT_MENU)

lemma inv_hide (st : State) : Inv (hide_menu st) := by
  intro h
  simp [hide_menu]

lemma inv_of_visible {st : State} (h : st.visible = true) : Inv st := by
  intro hv
  rw [h] at hv
  exact Bool.noConfusion hv

lemma run_action_inv_any (a : Action) (st : State) (hvis : st.visible = true) :
    Inv (run_action a st).1 := by
  by_cases hc : a.close_on_click = true
  · simpa [run_action, hc] using inv_hide st
  · have hc2 : a.close_on_click = false := by
      revert hc
      cases a.close_on_click <;> simp
    simp only [run_action, hc2, if_neg]
    simpa [hc2] using inv_of_visible hvis

lemma mainHit_inv (st : State) (x y : ℝ) (hvis : st.visible = true) :
    Inv (mainHit st x y).1 := by
  by_cases hn : (current_items st.path).length = 0
  · rw [mainHit_empty hn]
    exact inv_of_visible hvis
  cases hclosest : closest_index_for_pointer x y st.cx st.cy
      (ring_layout (current_items st.path).length st.cx st.cy ITEM_RING_DISTANCE)
      CENTER_RADIUS with
  | none =>
    rw [mainHit_nohit hn hclosest]
    exact inv_of_visible hvis
  | some i =>
    cases hget : (current_items st.path)[i]? with
    | none =>
      rw [mainHit_badIdx hn hclosest hget]
      exact inv_of_visible hvis
    | some item =>
      cases hkind : item.kind with
      | action a =>
        rw [mainHit_action hn hclosest hget hkind]
        exact run_action_inv_any a st hvis
      | submenu sub oc =>
        cases oc with
        | none =>
          rw [mainHit_submenu_none hn hclosest hget hkind]
          exact inv_of_visible (by simp [hvis])
        | some a =>
          have hmem : item ∈ current_items st.path := List.getElem?_mem hget
          have hsafeitem := List.all_eq_true.mp (current_all_safe st.path) item hmem
          have hclose : a.close_on_click = false := by
            cases item with
            | mk l k c =>
              simp only [MenuItem.kind] at hkind
              subst hkind
              simpa [itemSafe] using hsafeitem
          by_cases hq : dist2 x y st.cx st.cy ≤
              (ITEM_RING_DISTANCE - ITEM_RADIUS) * (ITEM_RING_DISTANCE - ITEM_RADIUS)
          · rw [mainHit_submenu_quick hn hclosest hget hkind hq]
            simpa [run_action] using inv_hide st
          · rw [mainHit_submenu_noquick hn hclosest hget hkind hq]
            intro hv
            simp [run_action, hclose, hvis] at hv

lemma click_inv (st : State) (x y : ℝ) (h : Inv st) : Inv (clickReleased st x y).1 := by
  by_cases hvis : st.visible = true
  · by_cases hanch : st.anchored = true
    · by_cases hc : dist2 x y st.cx st.cy ≤ CENTER_RADIUS * CENTER_RADIUS
      · by_cases hp : st.path = []
        · rw [clickReleased_center_root hvis hanch hc hp]
          exact inv_hide st
        · rw [clickReleased_center_pop hvis hanch hc hp]
          exact inv_of_visible (by simp [hvis])
      · rw [clickReleased_hit hvis hanch hc]
        exact mainHit_inv st x y hvis
    · have ha2 : st.anchored = false := by
        revert hanch
        cases st.anchored <;> simp
      rw [clickReleased_anchor hvis ha2]
      exact inv_of_visible (by simp [hvis])
  · have hv2 : st.visible = false := by
      revert hvis
      cases st.visible <;> simp
    rw [clickReleased_hidden hv2]
    exact h

lemma step_inv (st : State) (e : Event) (h : Inv st) : Inv (step st e) := by
  cases e with
  | toggle =>
    show Inv (toggleMsg st)
    unfold toggleMsg
    by_cases hvis : st.visible = true
    · rw [if_pos hvis]
      exact inv_hide st
    · rw [if_neg hvis]
      exact inv_of_visible (by simp [show_menu])
  | motion x y =>
    show Inv (motionMove st x y)
    unfold motionMove
    by_cases hc : (st.visible && !st.anchored) = true
    · rw [if_pos hc]
      have hvis : st.visible = true := by
        revert hc
        cases st.visible <;> simp
      exact inv_of_visible (by simp [hvis])
    · rw [if_neg hc]
      exact h
  | click x y => exact click_inv st x y h

lemma run_inv (evs : List Event) : Inv (run evs) := by
  have h : ∀ (l : List Event) (st : State), Inv st → Inv (List.foldl step st l) := by
    intro l
    induction l with
    | nil => intro st hst; exact hst
    | cons e rest ih => intro st hst; exact ih (step st e) (step_inv st e hst)
  exact h evs initState (fun _ => ⟨rfl, rfl⟩)

/-- Claim C9: in every state reachable from `State::default()` under the
static menu configuration, `visible = false` implies an empty path and
`anchored = false`; the dispatch-then-descend ordering never leaves a
hidden state with a non-empty path because no submenu default action in
the static tree closes on activation. -/
theorem reachable_hidden_inv (evs : List Event) (h : (run evs).visible = false) :
    (run evs).path = [] ∧ (run evs).anchored = false :=
  run_inv evs h

/-- Witness for C9 at the empty event trace. -/
theorem reachable_hidden_inv_witness :
    (run []).visible = false ∧ ((run []).path = [] ∧ (run []).anchored = false) :=
  ⟨rfl, reachable_hidden_inv [] rfl⟩

lemma CENTER_RADIUS_eq : CENTER_RADIUS = 18 := by norm_num [CENTER_RADIUS]

lemma ITEM_RING_DISTANCE_eq : ITEM_RING_DISTANCE = 86 := by norm_num [ITEM_RING_DISTANCE]

lemma ITEM_RADIUS_eq : ITEM_RADIUS = 35 := by norm_num [ITEM_RADIUS]

lemma sqrt3_sq : Real.sqrt 3 * Real.sqrt 3 = 3 := Real.mul_self_sqrt (by norm_num)

lemma sqrt3_nonneg : 0 ≤ Real.sqrt 3 := Real.sqrt_nonneg 3

lemma sqrt3_gt_one : 1 < Real.sqrt 3 := by nlinarith [sqrt3_sq, sqrt3_nonneg]

lemma root_pt0 : (ring_layout 6 (0:ℝ) 0 ITEM_RING_DISTANCE)[0]? = some ((0:ℝ), (-86:ℝ)) := by
  rw [ITEM_RING_DISTANCE_eq, ring_layout_get? 6 0 0 86 0 (by norm_num)]
  have hθ : -(Real.pi / 2) + ((0:ℕ):ℝ) * (2 * Real.pi / ((6:ℕ):ℝ)) = -(Real.pi / 2) := by
    push_cast
    ring
  rw [hθ, Real.cos_neg, Real.cos_pi_div_two, Real.sin_neg, Real.sin_pi_div_two]
  norm_num

lemma root_pt1 : (ring_layout 6 (0:ℝ) 0 ITEM_RING_DISTANCE)[1]? =
    some ((43:ℝ) * Real.sqrt 3, (-43:ℝ)) := by
  rw [ITEM_RING_DISTANCE_eq, ring_layout_get? 6 0 0 86 1 (by norm_num)]
  have hθ : -(Real.pi / 2) + ((1:ℕ):ℝ) * (2 * Real.pi / ((6:ℕ):ℝ)) = -(Real.pi / 6) := by
    push_cast
    ring
  rw [hθ, Real.cos_neg, Real.cos_pi_div_six, Real.sin_neg, Real.sin_pi_div_six]
  norm_num
  ring

lemma root_pt2 : (ring_layout 6 (0:ℝ) 0 ITEM_RING_DISTANCE)[2]? =
    some ((43:ℝ) * Real.sqrt 3, (43:ℝ)) := by
  rw [ITEM_RING_DISTANCE_eq, ring_layout_get? 6 0 0 86 2 (by norm_num)]
  have hθ : -(Real.pi / 2) + ((2:ℕ):ℝ) * (2 * Real.pi / ((6:ℕ):ℝ)) = Real.pi / 6 := by
    push_cast
    ring
  rw [hθ, Real.cos_pi_div_six, Real.sin_pi_div_six]
  norm_num
  ring

lemma root_pt3 : (ring_layout 6 (0:ℝ) 0 ITEM_RING_DISTANCE)[3]? = some ((0:ℝ), (86:ℝ)) := by
  rw [ITEM_RING_DISTANCE_eq, ring_layout_get? 6 0 0 86 3 (by norm_num)]
  have hθ : -(Real.pi / 2) + ((3:ℕ):ℝ) * (2 * Real.pi / ((6:ℕ):ℝ)) = Real.pi / 2 := by
    push_cast
    ring
  rw [hθ, Real.cos_pi_div_two, Real.sin_pi_div_two]
  norm_num

lemma root_pt4 : (ring_layout 6 (0:ℝ) 0 ITEM_RING_DISTANCE)[4]? =
    some (-((43:ℝ) * Real.sqrt 3), (43:ℝ)) := by
  rw [ITEM_RING_DISTANCE_eq, ring_layout_get? 6 0 0 86 4 (by norm_num)]
  have hθ : -(Real.pi / 2) + ((4:ℕ):ℝ) * (2 * Real.pi / ((6:ℕ):ℝ)) =
      Real.pi - Real.pi / 6 := by
    push_cast
    ring
  rw [hθ, Real.cos_pi_sub, Real.sin_pi_sub, Real.cos_pi_div_six, Real.sin_pi_div_six]
  norm_num
  ring

lemma root_pt5 : (ring_layout 6 (0:ℝ) 0 ITEM_RING_DISTANCE)[5]? =
    some (-((43:ℝ) * Real.sqrt 3), (-43:ℝ)) := by
  rw [ITEM_RING_DISTANCE_eq, ring_layout_get? 6 0 0 86 5 (by norm_num)]
  have hθ : -(Real.pi / 2) + ((5:ℕ):ℝ) * (2 * Real.pi / ((6:ℕ):ℝ)) =
      Real.pi + Real.pi / 6 := by
    push_cast
    ring
  rw [hθ, Real.cos_add, Real.sin_add, Real.cos_pi, Real.sin_pi, Real.cos_pi_div_six,
    Real.sin_pi_div_six]
  norm_num
  ring

lemma ring_root_ne_nil : ring_layout 6 (0:ℝ) 0 ITEM_RING_DISTANCE ≠ [] := by
  intro h
  have hl := ring_layout_length 6 (0:ℝ) 0 ITEM_RING_DISTANCE
  rw [h] at hl
  simp at hl

lemma ring_root_length : (ring_layout 6 (0:ℝ) 0 ITEM_RING_DISTANCE).length = 6 :=
  ring_layout_length 6 (0:ℝ) 0 ITEM_RING_DISTANCE

/-- A click straight below the anchored center (offset `x`, `x² < 43²`)
hit-tests to entry 0 of the root ring. -/
lemma closest_root_bottom (x : ℝ) (hx : x * x < 1849) :
    closest_index_for_pointer x (-86) 0 0 (ring_layout 6 (0:ℝ) 0 ITEM_RING_DISTANCE)
      CENTER_RADIUS = some 0 := by
  have hdz : ¬ dist2 x (-86) 0 0 < CENTER_RADIUS * CENTER_RADIUS := by
    rw [CENTER_RADIUS_eq]
    simp only [dist2]
    nlinarith [sq_nonneg x]
  obtain ⟨k, hk, heq, hmin, hstrict⟩ :=
    closest_spec x (-86) 0 0 CENTER_RADIUS _ hdz ring_root_ne_nil
  rw [ring_root_length] at hk
  have hd0 : ptDist2 x (-86) (ring_layout 6 (0:ℝ) 0 ITEM_RING_DISTANCE) 0 = x * x := by
    simp only [ptDist2, root_pt0, dist2]
    ring
  have hd1 : 1849 ≤ ptDist2 x (-86) (ring_layout 6 (0:ℝ) 0 ITEM_RING_DISTANCE) 1 := by
    simp only [ptDist2, root_pt1, dist2]
    nlinarith [sq_nonneg (x - 43 * Real.sqrt 3)]
  have hd2 : 1849 ≤ ptDist2 x (-86) (ring_layout 6 (0:ℝ) 0 ITEM_RING_DISTANCE) 2 := by
    simp only [ptDist2, root_pt2, dist2]
    nlinarith [sq_nonneg (x - 43 * Real.sqrt 3)]
  have hd3 : 1849 ≤ ptDist2 x (-86) (ring_layout 6 (0:ℝ) 0 ITEM_RING_DISTANCE) 3 := by
    simp only [ptDist2, root_pt3, dist2]
    nlinarith [sq_nonneg x]
  have hd4 : 1849 ≤ ptDist2 x (-86) (ring_layout 6 (0:ℝ) 0 ITEM_RING_DISTANCE) 4 := by
    simp only [ptDist2, root_pt4, dist2]
    nlinarith [sq_nonneg (x + 43 * Real.sqrt 3)]
  have hd5 : 1849 ≤ ptDist2 x (-86) (ring_layout 6 (0:ℝ) 0 ITEM_RING_DISTANCE) 5 := by
    simp only [ptDist2, root_pt5, dist2]
    nlinarith [sq_nonneg (x + 43 * Real.sqrt 3)]
  interval_cases k
  · exact heq
  · exfalso
    have h := hmin 0 (by rw [ring_root_length]; norm_num)
    rw [hd0] at h
    linarith
  · exfalso
    have h := hmin 0 (by rw [ring_root_length]; norm_num)
    rw [hd0] at h
    linarith
  · exfalso
    have h := hmin 0 (by rw [ring_root_length]; norm_num)
    rw [hd0] at h
    linarith
  · exfalso
    have h := hmin 0 (by rw [ring_root_length]; norm_num)
    rw [hd0] at h
    linarith
  · exfalso
    have h := hmin 0 (by rw [ring_root_length]; norm_num)
    rw [hd0] at h
    linarith

/-- A click at `(30, 30)` on the anchored root ring hit-tests to entry 2
(the Tools submenu): closest by squared distance among the six points. -/
lemma closest_root_tools :
    closest_index_for_pointer 30 30 0 0 (ring_layout 6 (0:ℝ) 0 ITEM_RING_DISTANCE)
      CENTER_RADIUS = some 2 := by
  have hdz : ¬ dist2 30 30 (0:ℝ) 0 < CENTER_RADIUS * CENTER_RADIUS := by
    rw [CENTER_RADIUS_eq]
    norm_num [dist2]
  obtain ⟨k, hk, heq, hmin, hstrict⟩ :=
    closest_spec 30 30 0 0 CENTER_RADIUS _ hdz ring_root_ne_nil
  rw [ring_root_length] at hk
  have hd0 : ptDist2 30 30 (ring_layout 6 (0:ℝ) 0 ITEM_RING_DISTANCE) 0 = 14356 := by
    simp only [ptDist2, root_pt0, dist2]
    norm_num
  have hd1 : ptDist2 30 30 (ring_layout 6 (0:ℝ) 0 ITEM_RING_DISTANCE) 1 =
      11776 - 2580 * Real.sqrt 3 := by
    simp only [ptDist2, root_pt1, dist2]
    linear_combination 1849 * sqrt3_sq
  have hd2 : ptDist2 30 30 (ring_layout 6 (0:ℝ) 0 ITEM_RING_DISTANCE) 2 =
      6616 - 2580 * Real.sqrt 3 := by
    simp only [ptDist2, root_pt2, dist2]
    linear_combination 1849 * sqrt3_sq
  have hd3 : ptDist2 30 30 (ring_layout 6 (0:ℝ) 0 ITEM_RING_DISTANCE) 3 = 4036 := by
    simp only [ptDist2, root_pt3, dist2]
    norm_num
  have hd4 : ptDist2 30 30 (ring_layout 6 (0:ℝ) 0 ITEM_RING_DISTANCE) 4 =
      6616 + 2580 * Real.sqrt 3 := by
    simp only [ptDist2, root_pt4, dist2]
    linear_combination 1849 * sqrt3_sq
  have hd5 : ptDist2 30 30 (ring_layout 6 (0:ℝ) 0 ITEM_RING_DISTANCE) 5 =
      11776 + 2580 * Real.sqrt 3 := by
    simp only [ptDist2, root_pt5, dist2]
    linear_combination 1849 * sqrt3_sq
  have h2lt : (2:ℕ) < (ring_layout 6 (0:ℝ) 0 ITEM_RING_DISTANCE).length := by
    rw [ring_root_length]
    norm_num
  interval_cases k
  · exfalso
    have h := hmin 2 h2lt
    rw [hd0, hd2] at h
    nlinarith [sqrt3_nonneg]
  · exfalso
    have h := hmin 2 h2lt
    rw [hd1, hd2] at h
    linarith
  · exact heq
  · exfalso
    have h := hstrict 2 (by norm_num)
    rw [hd3, hd2] at h
    nlinarith [sqrt3_gt_one]
  · exfalso
    have h := hstrict 2 (by norm_num)
    rw [hd4, hd2] at h
    nlinarith [sqrt3_nonneg]
  · exfalso
    have h := hstrict 2 (by norm_num)
    rw [hd5, hd2] at h
    nlinarith [sqrt3_nonneg]

/-- Claim C1 (amended): in a submenu, a click on the center control pops one
path element — so a descend-then-ascend round trip restores `path` to its
pre-descent length — but sets `center` to the click coordinates; there is no
center stack and the pre-descent center is not restored. -/
theorem center_click_pops_and_snaps (st : State) (x y : ℝ)
    (hv : st.visible = true) (ha : st.anchored = true)
    (hc : dist2 x y st.cx st.cy ≤ CENTER_RADIUS * CENTER_RADIUS) (hp : st.path ≠ []) :
    clickReleased st x y = ({ st with path := st.path.dropLast, cx := x, cy := y }, []) ∧
    ((clickReleased st x y).1).path.length + 1 = st.path.length := by
  have h := clickReleased_center_pop hv ha hc hp
  refine ⟨h, ?_⟩
  rw [h]
  have hpos : 0 < st.path.length := List.length_pos.mpr hp
  simp only [List.length_dropLast]
  omega

/-- Witness for C1 (amended): ascend from `path = [0]` with center
`(0, -86)` by clicking `(5, -86)`. -/
theorem center_click_pops_and_snaps_witness :
    clickReleased ⟨true, true, 0, 0, 0, -86, 0, 0, [0]⟩ 5 (-86) =
      ({ (⟨true, true, 0, 0, 0, -86, 0, 0, [0]⟩ : State) with
          path := ([0] : List ℕ).dropLast, cx := 5, cy := -86 }, []) ∧
    ((clickReleased ⟨true, true, 0, 0, 0, -86, 0, 0, [0]⟩ 5 (-86)).1).path.length + 1 =
      ([0] : List ℕ).length :=
  center_click_pops_and_snaps ⟨true, true, 0, 0, 0, -86, 0, 0, [0]⟩ 5 (-86) rfl rfl
    (by rw [CENTER_RADIUS_eq]; norm_num [dist2]) (by simp)

/-- Counterexample to C1 as stated: show, anchor at `(0,0)`, descend into
entry 0 by clicking `(0, -86)`, then ascend by clicking `(5, -86)` on the
center control.  The path returns to its pre-descent length but `center`
ends at `(5, -86)`, not at the pre-descent value `(0, 0)`: ascent does not
restore the center (the code keeps no center stack and snaps to the click
point). -/
theorem center_ascent_counterexample :
    (run [Event.toggle, Event.motion 0 0]).cx = 0 ∧
    (run [Event.toggle, Event.motion 0 0]).cy = 0 ∧
    (run [Event.toggle, Event.motion 0 0]).path = [] ∧
    (run [Event.toggle, Event.motion 0 0, Event.click 0 (-86)]).path = [0] ∧
    (run [Event.toggle, Event.motion 0 0, Event.click 0 (-86), Event.click 5 (-86)]).path
      = [] ∧
    (run [Event.toggle, Event.motion 0 0, Event.click 0 (-86), Event.click 5 (-86)]).cx
      = 5 ∧
    (run [Event.toggle, Event.motion 0 0, Event.click 0 (-86), Event.click 5 (-86)]).cy
      = -86 ∧
    (5:ℝ) ≠ 0 := by
  have h2 : run [Event.toggle, Event.motion 0 0] = ⟨true, true, 0, 0, 0, 0, 0, 0, []⟩ := rfl
  have hc3 : ¬ dist2 0 (-86) (0:ℝ) 0 ≤ CENTER_RADIUS * CENTER_RADIUS := by
    rw [CENTER_RADIUS_eq]
    norm_num [dist2]
  have hn : (current_items ([] : List ℕ)).length ≠ 0 := by decide
  have hget0 : (current_items ([] : List ℕ))[0]? =
      some ⟨"Action >", ItemKind.submenu ACTION_MENU none, SUBMENU_ITEM_COLOR⟩ := rfl
  have hkind0 : (⟨"Action >", ItemKind.submenu ACTION_MENU none,
      SUBMENU_ITEM_COLOR⟩ : MenuItem).kind = ItemKind.submenu ACTION_MENU none := rfl
  have h3 : clickReleased ⟨true, true, 0, 0, 0, 0, 0, 0, []⟩ 0 (-86) =
      (⟨true, true, 0, 0, 0, -86, 0, 0, [0]⟩, []) := by
    rw [clickReleased_hit rfl rfl hc3,
      mainHit_submenu_none hn (closest_root_bottom 0 (by norm_num)) hget0 hkind0]
    rfl
  have h3run : run [Event.toggle, Event.motion 0 0, Event.click 0 (-86)] =
      ⟨true, true, 0, 0, 0, -86, 0, 0, [0]⟩ := by
    show (clickReleased (run [Event.toggle, Event.motion 0 0]) 0 (-86)).1 =
      ⟨true, true, 0, 0, 0, -86, 0, 0, [0]⟩
    rw [h2, h3]
  have hc4 : dist2 5 (-86) (0:ℝ) (-86) ≤ CENTER_RADIUS * CENTER_RADIUS := by
    rw [CENTER_RADIUS_eq]
    norm_num [dist2]
  have h4 : clickReleased ⟨true, true, 0, 0, 0, -86, 0, 0, [0]⟩ 5 (-86) =
      (⟨true, true, 0, 0, 5, -86, 0, 0, []⟩, []) := by
    rw [clickReleased_center_pop rfl rfl hc4 (by simp)]
    rfl
  have h4run : run [Event.toggle, Event.motion 0 0, Event.click 0 (-86),
      Event.click 5 (-86)] = ⟨true, true, 0, 0, 5, -86, 0, 0, []⟩ := by
    show (clickReleased (run [Event.toggle, Event.motion 0 0, Event.click 0 (-86)])
      5 (-86)).1 = ⟨true, true, 0, 0, 5, -86, 0, 0, []⟩
    rw [h3run, h4]
  rw [h2, h3run, h4run]
  norm_num

/-- Claim C2 (amended): a click that hit-tests to a Submenu entry and does
not quick-activate pushes the index onto `path` and sets `center` to the
raw click coordinates `(x, y)` — not to the entry's ring-layout position. -/
theorem submenu_click_pushes_and_snaps (st : State) (x y : ℝ) (i : ℕ) (item : MenuItem)
    (sub : List MenuItem) (oc : Option Action)
    (hv : st.visible = true) (ha : st.anchored = true)
    (hc : ¬ dist2 x y st.cx st.cy ≤ CENTER_RADIUS * CENTER_RADIUS)
    (hclosest : closest_index_for_pointer x y st.cx st.cy
      (ring_layout (current_items st.path).length st.cx st.cy ITEM_RING_DISTANCE)
      CENTER_RADIUS = some i)
    (hget : (current_items st.path)[i]? = some item)
    (hkind : item.kind = ItemKind.submenu sub oc)
    (hoc : oc = none ∨ ∃ a, oc = some a ∧ a.close_on_click = false ∧
      ¬ dist2 x y st.cx st.cy ≤
        (ITEM_RING_DISTANCE - ITEM_RADIUS) * (ITEM_RING_DISTANCE - ITEM_RADIUS)) :
    ((clickReleased st x y).1).path = st.path ++ [i] ∧
    ((clickReleased st x y).1).cx = x ∧ ((clickReleased st x y).1).cy = y := by
  have hn : (current_items st.path).length ≠ 0 := by
    intro h0
    rw [List.getElem?_eq_none (by omega)] at hget
    exact Option.noConfusion hget
  rw [clickReleased_hit hv ha hc]
  rcases hoc with rfl | ⟨a, rfl, hclose, hq⟩
  · rw [mainHit_submenu_none hn hclosest hget hkind]
    exact ⟨rfl, rfl, rfl⟩
  · rw [mainHit_submenu_noquick hn hclosest hget hkind hq]
    simp [run_action, hclose]

/-- Witness for C2 (amended): descend from the anchored root at `(0,0)` by
clicking `(1, -86)`; the new path is `[0]` and the center is the click
point. -/
theorem submenu_click_pushes_and_snaps_witness :
    ((clickReleased ⟨true, true, 0, 0, 0, 0, 0, 0, []⟩ 1 (-86)).1).path = [] ++ [0] ∧
    ((clickReleased ⟨true, true, 0, 0, 0, 0, 0, 0, []⟩ 1 (-86)).1).cx = 1 ∧
    ((clickReleased ⟨true, true, 0, 0, 0, 0, 0, 0, []⟩ 1 (-86)).1).cy = -86 :=
  submenu_click_pushes_and_snaps ⟨true, true, 0, 0, 0, 0, 0, 0, []⟩ 1 (-86) 0
    ⟨"Action >", ItemKind.submenu ACTION_MENU none, SUBMENU_ITEM_COLOR⟩ ACTION_MENU none
    rfl rfl (by rw [CENTER_RADIUS_eq]; norm_num [dist2])
    (closest_root_bottom 1 (by norm_num)) rfl rfl (Or.inl rfl)

/-- Counterexample to C2 as stated: show, anchor at `(0,0)`, click at
`(1, -86)`.  The click hit-tests to entry 0 (a Submenu) and descends, but
the new center is the click point `(1, -86)`, while entry 0's ring-layout
position is `(0, -86)`: the code does not move the center to the layout
position. -/
theorem submenu_descend_counterexample :
    (run [Event.toggle, Event.motion 0 0, Event.click 1 (-86)]).path = [0] ∧
    (run [Event.toggle, Event.motion 0 0, Event.click 1 (-86)]).cx = 1 ∧
    (run [Event.toggle, Event.motion 0 0, Event.click 1 (-86)]).cy = -86 ∧
    (ring_layout (current_items []).length 0 0 ITEM_RING_DISTANCE)[0]? =
      some ((0:ℝ), (-86:ℝ)) ∧
    ((1:ℝ), (-86:ℝ)) ≠ ((0:ℝ), (-86:ℝ)) := by
  have h2 : run [Event.toggle, Event.motion 0 0] = ⟨true, true, 0, 0, 0, 0, 0, 0, []⟩ := rfl
  have hc3 : ¬ dist2 1 (-86) (0:ℝ) 0 ≤ CENTER_RADIUS * CENTER_RADIUS := by
    rw [CENTER_RADIUS_eq]
    norm_num [dist2]
  have hn : (current_items ([] : List ℕ)).length ≠ 0 := by decide
  have hget0 : (current_items ([] : List ℕ))[0]? =
      some ⟨"Action >", ItemKind.submenu ACTION_MENU none, SUBMENU_ITEM_COLOR⟩ := rfl
  have hkind0 : (⟨"Action >", ItemKind.submenu ACTION_MENU none,
      SUBMENU_ITEM_COLOR⟩ : MenuItem).kind = ItemKind.submenu ACTION_MENU none := rfl
  have h3 : clickReleased ⟨true, true, 0, 0, 0, 0, 0, 0, []⟩ 1 (-86) =
      (⟨true, true, 0, 0, 1, -86, 0, 0, [0]⟩, []) := by
    rw [clickReleased_hit rfl rfl hc3,
      mainHit_submenu_none hn (closest_root_bottom 1 (by norm_num)) hget0 hkind0]
    rfl
  have h3run : run [Event.toggle, Event.motion 0 0, Event.click 1 (-86)] =
      ⟨true, true, 0, 0, 1, -86, 0, 0, [0]⟩ := by
    show (clickReleased (run [Event.toggle, Event.motion 0 0]) 1 (-86)).1 =
      ⟨true, true, 0, 0, 1, -86, 0, 0, [0]⟩
    rw [h2, h3]
  refine ⟨by rw [h3run], by rw [h3run], by rw [h3run], root_pt0, by simp⟩

/-- Claim C6: a click that hit-tests to a Submenu entry with a default
action and lands in the inner activation band (squared distance to center
at most `(ITEM_RING_DISTANCE - ITEM_RADIUS)²`) dispatches the default
action with `close_on_click` forced to `true`, does not descend, and
leaves the machine Hidden with an empty path. -/
theorem quick_activate_spec (st : State) (x y : ℝ) (i : ℕ) (item : MenuItem)
    (sub : List MenuItem) (a : Action)
    (hv : st.visible = true) (ha : st.anchored = true)
    (hc : ¬ dist2 x y st.cx st.cy ≤ CENTER_RADIUS * CENTER_RADIUS)
    (hclosest : closest_index_for_pointer x y st.cx st.cy
      (ring_layout (current_items st.path).length st.cx st.cy ITEM_RING_DISTANCE)
      CENTER_RADIUS = some i)
    (hget : (current_items st.path)[i]? = some item)
    (hkind : item.kind = ItemKind.submenu sub (some a))
    (hq : dist2 x y st.cx st.cy ≤
      (ITEM_RING_DISTANCE - ITEM_RADIUS) * (ITEM_RING_DISTANCE - ITEM_RADIUS)) :
    clickReleased st x y = (hide_menu st, [{ a with close_on_click := true }]) ∧
    ((clickReleased st x y).1).visible = false ∧
    ((clickReleased st x y).1).path = [] := by
  have hn : (current_items st.path).length ≠ 0 := by
    intro h0
    rw [List.getElem?_eq_none (by omega)] at hget
    exact Option.noConfusion hget
  rw [clickReleased_hit hv ha hc, mainHit_submenu_quick hn hclosest hget hkind hq]
  exact ⟨rfl, rfl, rfl⟩

/-- Witness for C6: from the anchored root at `(0,0)`, the click `(30, 30)`
hit-tests to entry 2 (`Tools >`, default action `key-ctrl-6 f6`) inside the
inner band (`1800 ≤ 51²`), so the default action fires with `close_on_click`
forced and the menu hides without descending. -/
theorem quick_activate_spec_witness :
    clickReleased ⟨true, true, 0, 0, 0, 0, 0, 0, []⟩ 30 30 =
      (hide_menu ⟨true, true, 0, 0, 0, 0, 0, 0, []⟩,
        [{ (⟨"key-ctrl-6 f6", false⟩ : Action) with close_on_click := true }]) ∧
    ((clickReleased ⟨true, true, 0, 0, 0, 0, 0, 0, []⟩ 30 30).1).visible = false ∧
    ((clickReleased ⟨true, true, 0, 0, 0, 0, 0, 0, []⟩ 30 30).1).path = [] :=
  quick_activate_spec ⟨true, true, 0, 0, 0, 0, 0, 0, []⟩ 30 30 2
    ⟨"Tools >", ItemKind.submenu TOOLS_MENU (some ⟨"key-ctrl-6 f6", false⟩),
      SUBMENU_ITEM_COLOR⟩ TOOLS_MENU ⟨"key-ctrl-6 f6", false⟩
    rfl rfl (by rw [CENTER_RADIUS_eq]; norm_num [dist2]) closest_root_tools rfl rfl
    (by rw [ITEM_RING_DISTANCE_eq, ITEM_RADIUS_eq]; norm_num [dist2])

end Waydo
